import Mathlib

/-!
Shallow embedding of the CTSM helper code under verification:

* `ctsm/site_and_regional/base_case.py` — class `BaseCase` with the three
  operations `create_1d_coord`, `add_tag_to_filename`, `update_metadata`;
* `tools/mksurfdata_esmf/gen_mksurfdata_jobscript_single.py` — the job-script
  emitter `main`.

Python strings are embedded as `List Char`.  External effects (the current
date, the current user, the git short hash, the absolute path of the tool
file) enter the embedded functions as explicit parameters.  In-place mutation
of an xarray dataset's attribute dictionary is embedded as explicit state
passing over an association list.
-/

set_option autoImplicit false
set_option maxRecDepth 8192

namespace CTSM

/-- Model of `os.path.basename`: the part of the path after the final `/`
(the whole string when it holds no `/`). -/
def pyBasename (s : List Char) : List Char :=
  (s.reverse.takeWhile (fun c => !(c == '/'))).reverse

/-- Model of Python negative string indexing `s[-k]` for `k ≥ 1`: the
character at position `len - k` when `len ≥ k`, and an `IndexError`
(embedded as `none`) otherwise. -/
def pyIndexNeg (s : List Char) (k : Nat) : Option Char :=
  if k ≤ s.length then s.get? (s.length - k) else none

/-- Outcome of `BaseCase.add_tag_to_filename`.

* `ok fname_out` — the function returns the string `fname_out`;
* `aborted` — `logging.error(...)` ran and then `os.abort()` terminated the
  invoking process: no exception reaches the caller and no string is
  returned;
* `indexError` — a Python `IndexError` was raised by an out-of-range
  negative string index, before the boundary validation could run. -/
inductive TagResult where
  | ok (fname_out : List Char)
  | aborted
  | indexError
deriving DecidableEq

/-- Embedding of `BaseCase.add_tag_to_filename` (base_case.py lines 129-163).
`today_string` stands for `date.today().strftime("%y%m%d")`, the only
external input of the function. -/
def add_tag_to_filename (filename tag today_string : List Char) : TagResult :=
  let basename := pyBasename filename
  match pyIndexNeg basename 10 with
  | none => TagResult.indexError
  | some c0 =>
    let cend : Nat := if c0 = 'c' then 11 else 10
    match pyIndexNeg basename cend with
    | none => TagResult.indexError
    | some b =>
      if b ≠ '.' ∧ b ≠ '_' then TagResult.aborted
      else TagResult.ok
        (basename.take (basename.length - cend)
          ++ '_' :: (tag ++ '_' :: 'c' :: (today_string ++ ['.', 'n', 'c'])))

example :
    add_tag_to_filename "foo_bar.c210101.nc".data "hist".data "250101".data
      = TagResult.ok "foo_bar_hist_c250101.nc".data := by decide

example :
    add_tag_to_filename "foo_210101.nc".data "v2".data "250101".data
      = TagResult.ok "foo_v2_c250101.nc".data := by decide

example :
    add_tag_to_filename "foobarbaz123.nc".data "t".data "250101".data
      = TagResult.aborted := by decide

example :
    add_tag_to_filename "a.nc".data "t".data "250101".data
      = TagResult.indexError := by decide

example :
    add_tag_to_filename "c123456.nc".data "t".data "250101".data
      = TagResult.indexError := by decide

example :
    add_tag_to_filename "dir/foo_210101.nc".data "v2".data "250101".data
      = TagResult.ok "foo_v2_c250101.nc".data := by decide

/-- C1: for every filename whose basename has `.` or `_` at the computed
boundary (10 characters from the end, shifted one further left when the
character there is `c`) and a given tag, `add_tag_to_filename` returns the
prefix before the boundary joined with `_` + tag + `_c` + the current date as
YYMMDD + `.nc`. -/
theorem add_tag_ok (filename tag today_string : List Char) (c0 b : Char)
    (h0 : pyIndexNeg (pyBasename filename) 10 = some c0)
    (hb : pyIndexNeg (pyBasename filename) (if c0 = 'c' then 11 else 10) = some b)
    (hok : b = '.' ∨ b = '_') :
    add_tag_to_filename filename tag today_string
      = TagResult.ok ((pyBasename filename).take
            ((pyBasename filename).length - (if c0 = 'c' then 11 else 10))
          ++ '_' :: (tag ++ '_' :: 'c' :: (today_string ++ ['.', 'n', 'c']))) := by
  have hne : ¬ (b ≠ '.' ∧ b ≠ '_') := by
    rcases hok with rfl | rfl <;> simp
  simp only [add_tag_to_filename, h0, hb]
  rw [if_neg hne]

/-- Witness for C1 at the two concrete examples of the spec, with the clock
fixed to `250101`. -/
theorem add_tag_ok_witness :
    add_tag_to_filename "foo_bar.c210101.nc".data "hist".data "250101".data
        = TagResult.ok "foo_bar_hist_c250101.nc".data ∧
    add_tag_to_filename "foo_210101.nc".data "v2".data "250101".data
        = TagResult.ok "foo_v2_c250101.nc".data := by
  constructor
  · exact add_tag_ok "foo_bar.c210101.nc".data "hist".data "250101".data 'c' '.'
      (by decide) (by decide) (Or.inl rfl)
  · exact add_tag_ok "foo_210101.nc".data "v2".data "250101".data '_' '_'
      (by decide) (by decide) (Or.inr rfl)

/-- C6: for every filename whose basename fails the boundary check (the
character 10 from the end, or 11 from the end when the former is `c`, is
neither `.` nor `_`), `add_tag_to_filename` logs an error and terminates the
invoking process (`TagResult.aborted` embeds `logging.error` followed by
`os.abort()`): no exception is raised for the caller and no string is
returned. -/
theorem add_tag_aborts (filename tag today_string : List Char) (c0 b : Char)
    (h0 : pyIndexNeg (pyBasename filename) 10 = some c0)
    (hb : pyIndexNeg (pyBasename filename) (if c0 = 'c' then 11 else 10) = some b)
    (hdot : b ≠ '.') (hund : b ≠ '_') :
    add_tag_to_filename filename tag today_string = TagResult.aborted := by
  simp only [add_tag_to_filename, h0, hb]
  rw [if_pos ⟨hdot, hund⟩]

/-- Witness for C6: a basename whose 10th-from-last character is `r`. -/
theorem add_tag_aborts_witness :
    add_tag_to_filename "foobarbaz123.nc".data "t".data "250101".data
      = TagResult.aborted :=
  add_tag_aborts "foobarbaz123.nc".data "t".data "250101".data 'r' 'r'
    (by decide) (by decide) (by decide) (by decide)

/-- C7: for every filename whose basename is shorter than 10 characters (or
exactly 10 characters and starting with `c`), `add_tag_to_filename` hits an
out-of-range negative index and raises `IndexError` before any boundary
validation runs — it neither aborts the process nor returns a tagged name. -/
theorem add_tag_short_index_error (filename tag today_string : List Char)
    (h : (pyBasename filename).length < 10 ∨
         ((pyBasename filename).length = 10 ∧ (pyBasename filename).head? = some 'c')) :
    add_tag_to_filename filename tag today_string = TagResult.indexError := by
  rcases h with h | ⟨hlen, hc⟩
  · have h10 : pyIndexNeg (pyBasename filename) 10 = none := by
      unfold pyIndexNeg
      rw [if_neg (by omega)]
    simp [add_tag_to_filename, h10]
  · have h10 : pyIndexNeg (pyBasename filename) 10 = some 'c' := by
      simp only [pyIndexNeg, hlen]
      norm_num
      cases hpb : pyBasename filename with
      | nil => rw [hpb] at hc; simp at hc
      | cons a t => rw [hpb] at hc; simpa using hc
    have h11 : pyIndexNeg (pyBasename filename) 11 = none := by
      unfold pyIndexNeg
      rw [if_neg (by omega)]
    simp [add_tag_to_filename, h10, h11]

/-- Witness for C7: a 4-character basename, and a 10-character basename
starting with `c`. -/
theorem add_tag_short_index_error_witness :
    add_tag_to_filename "a.nc".data "t".data "250101".data = TagResult.indexError ∧
    add_tag_to_filename "c123456.nc".data "t".data "250101".data = TagResult.indexError := by
  constructor
  · exact add_tag_short_index_error "a.nc".data "t".data "250101".data
      (Or.inl (by decide))
  · exact add_tag_short_index_error "c123456.nc".data "t".data "250101".data
      (Or.inr ⟨by decide, by decide⟩)

/-- Decimal value of a digit character, `none` on a non-digit. -/
def digVal (c : Char) : Option Nat :=
  if '0' ≤ c ∧ c ≤ '9' then some (c.toNat - '0'.toNat) else none

/-- Parse a nonempty all-digit string as a natural number. -/
def parseNatDigits (cs : List Char) : Option Nat :=
  if cs.isEmpty then none
  else cs.foldlM (fun acc c => (digVal c).map (fun d => acc * 10 + d)) 0

/-- Model of Python `int(str)` restricted to an optional sign followed by
decimal digits (surrounding whitespace and underscore digit grouping are not
modelled; the source only ever meets plain numerals or fully non-numeric
strings).  `none` embeds the `ValueError` raised on non-numeric input. -/
def pyInt (cs : List Char) : Option Int :=
  match cs with
  | '-' :: rest => (parseNatDigits rest).map (fun n => -(n : Int))
  | '+' :: rest => (parseNatDigits rest).map (fun n => (n : Int))
  | _ => (parseNatDigits cs).map (fun n => (n : Int))

example : pyInt "2".data = some 2 := by decide
example : pyInt "-13".data = some (-13) := by decide
example : pyInt "abc".data = none := by decide
example : pyInt "".data = none := by decide

/-- Outcome of the job-script emitter `main`
(gen_mksurfdata_jobscript_single.py lines 63-95).

* `written content` — the `with open(...)` block completed; the output file
  holds exactly `content`;
* `failedPartial content` — `int(...)` raised `ValueError` mid-block; the
  `with` statement closed the file, which is left holding exactly `content`
  (everything written before the exception). -/
inductive EmitResult where
  | written (content : List Char)
  | failedPartial (content : List Char)
deriving DecidableEq

/-- The text written by the eight `runfile.write` calls that precede the
integer conversion: shebang, six `#PBS` directive lines (each with a space
before its newline, as in the source f-strings), and a blank line. -/
def jobscript_header (account number_of_nodes tasks_per_node : List Char) : List Char :=
  "#!/bin/bash \n".data
    ++ "#PBS -A ".data ++ account ++ " \n".data
    ++ "#PBS -N mksurfdata \n".data
    ++ "#PBS -j oe \n".data
    ++ "#PBS -q regular \n".data
    ++ "#PBS -l walltime=30:00 \n".data
    ++ "#PBS -l select=".data ++ number_of_nodes ++ ":ncpus=36:mpiprocs=".data
    ++ tasks_per_node ++ " \n".data
    ++ "\n".data

/-- Embedding of `main` of gen_mksurfdata_jobscript_single.py (the spec's
`JobscriptEmitter.render`): the file content produced for the given
`--account`, `--number-of-nodes`, `--tasks-per-node` and `--namelist-file`
arguments.  The rank count is `int(tasks_per_node) * int(number_of_nodes)`,
computed only after the header writes. -/
def main (account number_of_nodes tasks_per_node namelist_file : List Char) : EmitResult :=
  let header := jobscript_header account number_of_nodes tasks_per_node
  match pyInt tasks_per_node, pyInt number_of_nodes with
  | some t, some n =>
    EmitResult.written (header
      ++ "mpiexec_mpt -p \"%g:\" -np ".data ++ (toString (t * n)).data
      ++ " ./src/mksurfdata < ".data ++ namelist_file ++ " \n".data)
  | _, _ => EmitResult.failedPartial header

example :
    main "P1".data "2".data "4".data "nl.txt".data
      = EmitResult.written ("#!/bin/bash \n#PBS -A P1 \n#PBS -N mksurfdata \n#PBS -j oe \n#PBS -q regular \n#PBS -l walltime=30:00 \n#PBS -l select=2:ncpus=36:mpiprocs=4 \n\nmpiexec_mpt -p \"%g:\" -np 8 ./src/mksurfdata < nl.txt \n").data := by
  decide

/-- Modelled from the spec: the bit-exact job script text block of spec §6
(shebang, six directive lines, a blank line, and the launch line, with no
trailing space before any newline), for comparison against the emitter's
actual output. -/
def spec_jobscript_text (account number_of_nodes tasks_per_node namelist_file : List Char)
    (np : Int) : List Char :=
  "#!/bin/bash\n".data
    ++ "#PBS -A ".data ++ account ++ "\n".data
    ++ "#PBS -N mksurfdata\n".data
    ++ "#PBS -j oe\n".data
    ++ "#PBS -q regular\n".data
    ++ "#PBS -l walltime=30:00\n".data
    ++ "#PBS -l select=".data ++ number_of_nodes ++ ":ncpus=36:mpiprocs=".data
    ++ tasks_per_node ++ "\n".data
    ++ "\n".data
    ++ "mpiexec_mpt -p \"%g:\" -np ".data ++ (toString np).data
    ++ " ./src/mksurfdata < ".data ++ namelist_file ++ "\n".data

/-- C2 counterexample: at account `P1`, 2 nodes, 4 tasks per node and
namelist `nl.txt`, the emitter's output is not the bit-exact text of the
spec's job script format block — every written line carries a trailing space
before its newline. -/
theorem jobscript_not_spec_block :
    main "P1".data "2".data "4".data "nl.txt".data
      ≠ EmitResult.written
          (spec_jobscript_text "P1".data "2".data "4".data "nl.txt".data 8) := by
  decide

/-- C2 (amended): for every account, node-count string, tasks-per-node
string, and namelist path whose two numeric strings convert to integers
`n` and `t`, `main` writes the spec's job script block except that each
written line ends with a space before its newline; the rank count in the
launch line is `t * n`. -/
theorem jobscript_output (account number_of_nodes tasks_per_node namelist_file : List Char)
    (t n : Int)
    (ht : pyInt tasks_per_node = some t) (hn : pyInt number_of_nodes = some n) :
    main account number_of_nodes tasks_per_node namelist_file
      = EmitResult.written
          ("#!/bin/bash \n".data
            ++ "#PBS -A ".data ++ account ++ " \n".data
            ++ "#PBS -N mksurfdata \n".data
            ++ "#PBS -j oe \n".data
            ++ "#PBS -q regular \n".data
            ++ "#PBS -l walltime=30:00 \n".data
            ++ "#PBS -l select=".data ++ number_of_nodes ++ ":ncpus=36:mpiprocs=".data
            ++ tasks_per_node ++ " \n".data
            ++ "\n".data
            ++ "mpiexec_mpt -p \"%g:\" -np ".data ++ (toString (t * n)).data
            ++ " ./src/mksurfdata < ".data ++ namelist_file ++ " \n".data) := by
  simp [main, jobscript_header, ht, hn, List.append_assoc]

/-- Witness for C2 (amended) at the spec's concrete instance: the
resource-selection line reads `#PBS -l select=2:ncpus=36:mpiprocs=4 ` and the
launch line carries rank count 8. -/
theorem jobscript_output_witness :
    main "P1".data "2".data "4".data "nl.txt".data
      = EmitResult.written ("#!/bin/bash \n#PBS -A P1 \n#PBS -N mksurfdata \n#PBS -j oe \n#PBS -q regular \n#PBS -l walltime=30:00 \n#PBS -l select=2:ncpus=36:mpiprocs=4 \n\nmpiexec_mpt -p \"%g:\" -np 8 ./src/mksurfdata < nl.txt \n").data := by
  have h := jobscript_output "P1".data "2".data "4".data "nl.txt".data 4 2
    (by decide) (by decide)
  exact h

/-- C10: when the tasks-per-node or node-count argument is non-numeric, the
integer-conversion error arises only after the shebang, the six directive
lines and the blank line were already written, so the output file is created
and left holding exactly the full directive header. -/
theorem jobscript_partial_on_bad_int
    (account number_of_nodes tasks_per_node namelist_file : List Char)
    (h : pyInt tasks_per_node = none ∨ pyInt number_of_nodes = none) :
    main account number_of_nodes tasks_per_node namelist_file
      = EmitResult.failedPartial
          ("#!/bin/bash \n".data
            ++ "#PBS -A ".data ++ account ++ " \n".data
            ++ "#PBS -N mksurfdata \n".data
            ++ "#PBS -j oe \n".data
            ++ "#PBS -q regular \n".data
            ++ "#PBS -l walltime=30:00 \n".data
            ++ "#PBS -l select=".data ++ number_of_nodes ++ ":ncpus=36:mpiprocs=".data
            ++ tasks_per_node ++ " \n".data
            ++ "\n".data) := by
  rcases h with h | h
  · simp [main, jobscript_header, h, List.append_assoc]
  · cases ht : pyInt tasks_per_node <;>
      simp [main, jobscript_header, h, ht, List.append_assoc]

/-- Witness for C10: non-numeric tasks-per-node `abc` leaves the file with
the full directive header only. -/
theorem jobscript_partial_on_bad_int_witness :
    main "P93300606".data "2".data "abc".data "nl.txt".data
      = EmitResult.failedPartial ("#!/bin/bash \n#PBS -A P93300606 \n#PBS -N mksurfdata \n#PBS -j oe \n#PBS -q regular \n#PBS -l walltime=30:00 \n#PBS -l select=2:ncpus=36:mpiprocs=abc \n\n").data := by
  have h := jobscript_partial_on_bad_int "P93300606".data "2".data "abc".data "nl.txt".data
    (Or.inl (by decide))
  exact h

/-- Python-dict style association-list update: replace the value at an
existing key in place, or append the new binding at the end. -/
def updAssoc {β : Type} : List (String × β) → String → β → List (String × β)
  | [], k, v => [(k, v)]
  | (k0, v0) :: rest, k, v =>
    if k0 = k then (k, v) :: rest else (k0, v0) :: updAssoc rest k v

/-- Python-dict style association-list lookup. -/
def getAssoc {β : Type} : List (String × β) → String → Option β
  | [], _ => none
  | (k0, v0) :: rest, k => if k0 = k then some v0 else getAssoc rest k

/-- One step of the deletion loop of `update_metadata`
(`if attr in attr_list: del nc.attrs[attr]`). -/
def delIfPresent (l : List (String × String)) (k : String) : List (String × String) :=
  if (getAssoc l k).isSome then l.filter (fun p => !(p.1 == k)) else l

/-- The legacy-attribute denylist of `update_metadata` (base_case.py lines
196-205).  The source writes the adjacent string literals
`"history" "History_Log"`, which Python concatenates into the single key
`historyHistory_Log`; the list therefore has eight entries and contains
neither `history` nor `History_Log` on its own. -/
def del_attrs : List String :=
  ["source_code", "SVN_url", "hostname", "historyHistory_Log",
   "Logname", "Host", "Version", "Compiler_Optimized"]

/-- Embedding of the `BaseCase` constructor state (base_case.py lines 57-75):
the four boolean configuration flags recorded by `__init__`. -/
structure BaseCase where
  create_domain : Bool
  create_surfdata : Bool
  create_landuse : Bool
  create_datm : Bool
deriving DecidableEq

/-- Embedding of `BaseCase.update_metadata` (base_case.py lines 165-211).
The dataset's global attribute dictionary `nc.attrs` is embedded as an
association list passed in and returned (the source mutates it in place and
returns `None`).  `today_string` stands for
`date.today().strftime("%Y-%m-%d")`, `user` for `getuser()`, `file_abspath`
for `os.path.abspath(__file__)` and `sha` for `get_git_short_hash()` — the
function's external inputs.  The body never reads `self`. -/
def BaseCase.update_metadata (self : BaseCase) (attrs : List (String × String))
    (today_string user file_abspath sha : String) : List (String × String) :=
  let a1 := updAssoc attrs "Created_on" today_string
  let a2 := updAssoc a1 "Created_by" user
  let a3 := updAssoc a2 "Created_with" (file_abspath ++ " -- " ++ sha)
  del_attrs.foldl delIfPresent a3

/-- Example attribute dictionary used by concrete witnesses. -/
def exAttrs : List (String × String) :=
  [("history", "old history"), ("History_Log", "old log"), ("Version", "7"),
   ("hostname", "box"), ("Created_on", "1999-12-31")]

theorem getAssoc_updAssoc_same {β : Type} (l : List (String × β)) (k : String) (v : β) :
    getAssoc (updAssoc l k v) k = some v := by
  induction l with
  | nil => simp [updAssoc, getAssoc]
  | cons p rest ih =>
    obtain ⟨k0, v0⟩ := p
    by_cases h : k0 = k <;> simp [updAssoc, getAssoc, h, ih]

theorem getAssoc_updAssoc_ne {β : Type} (l : List (String × β)) (k k' : String) (v : β)
    (h : k ≠ k') : getAssoc (updAssoc l k' v) k = getAssoc l k := by
  induction l with
  | nil => simp [updAssoc, getAssoc, Ne.symm h]
  | cons p rest ih =>
    obtain ⟨k0, v0⟩ := p
    by_cases h0 : k0 = k' <;> simp [updAssoc, getAssoc, h0, ih, Ne.symm h]

theorem getAssoc_filterOut_self {β : Type} (l : List (String × β)) (k : String) :
    getAssoc (l.filter (fun p => !(p.1 == k))) k = none := by
  induction l with
  | nil => simp [getAssoc]
  | cons p rest ih =>
    obtain ⟨k0, v0⟩ := p
    by_cases h : k0 = k <;> simp [List.filter_cons, getAssoc, h, ih]

theorem getAssoc_filterOut_ne {β : Type} (l : List (String × β)) (k k' : String)
    (h : k ≠ k') : getAssoc (l.filter (fun p => !(p.1 == k'))) k = getAssoc l k := by
  induction l with
  | nil => simp [getAssoc]
  | cons p rest ih =>
    obtain ⟨k0, v0⟩ := p
    by_cases h0 : k0 = k' <;> by_cases h1 : k0 = k <;>
      simp_all [List.filter_cons, getAssoc]

theorem getAssoc_delIfPresent_self (l : List (String × String)) (k : String) :
    getAssoc (delIfPresent l k) k = none := by
  unfold delIfPresent
  by_cases h : (getAssoc l k).isSome
  · rw [if_pos h]
    exact getAssoc_filterOut_self l k
  · rw [if_neg h]
    cases hg : getAssoc l k with
    | none => rfl
    | some v => rw [hg] at h; simp at h

theorem getAssoc_delIfPresent_ne (l : List (String × String)) (k k' : String)
    (h : k ≠ k') : getAssoc (delIfPresent l k') k = getAssoc l k := by
  unfold delIfPresent
  by_cases hp : (getAssoc l k').isSome
  · rw [if_pos hp]
    exact getAssoc_filterOut_ne l k k' h
  · rw [if_neg hp]

theorem getAssoc_foldl_delIfPresent (ks : List String) (l : List (String × String))
    (k : String) :
    getAssoc (ks.foldl delIfPresent l) k = if k ∈ ks then none else getAssoc l k := by
  induction ks generalizing l with
  | nil => simp
  | cons k0 ks ih =>
    rw [List.foldl_cons, ih]
    by_cases hk : k ∈ ks
    · simp [hk]
    · by_cases h0 : k = k0
      · subst h0
        simp [hk, getAssoc_delIfPresent_self]
      · simp [hk, h0, getAssoc_delIfPresent_ne l k k0 h0]

theorem updAssoc_same_value {β : Type} (l : List (String × β)) (k : String) (v : β)
    (h : getAssoc l k = some v) : updAssoc l k v = l := by
  induction l with
  | nil => simp [getAssoc] at h
  | cons p rest ih =>
    obtain ⟨k0, v0⟩ := p
    by_cases h0 : k0 = k
    · subst h0
      simp [getAssoc] at h
      simp [updAssoc, h]
    · simp [getAssoc, h0] at h
      simp [updAssoc, h0, ih h]

theorem delIfPresent_absent (l : List (String × String)) (k : String)
    (h : getAssoc l k = none) : delIfPresent l k = l := by
  unfold delIfPresent
  rw [h]
  simp

theorem foldl_delIfPresent_absent (ks : List String) (l : List (String × String))
    (h : ∀ k ∈ ks, getAssoc l k = none) : ks.foldl delIfPresent l = l := by
  induction ks with
  | nil => rfl
  | cons k0 ks ih =>
    rw [List.foldl_cons, delIfPresent_absent l k0 (h k0 (by simp))]
    exact ih (fun k hk => h k (by simp [hk]))

/-- Complete characterisation of a lookup in the attribute dictionary left by
`update_metadata`: the eight denylisted keys are gone, the three `Created_*`
keys hold the fresh values, and every other key is untouched. -/
theorem getAssoc_update_metadata (bc : BaseCase) (attrs : List (String × String))
    (today_string user file_abspath sha : String) (k : String) :
    getAssoc (bc.update_metadata attrs today_string user file_abspath sha) k
      = if k ∈ del_attrs then none
        else if k = "Created_with" then some (file_abspath ++ " -- " ++ sha)
        else if k = "Created_by" then some user
        else if k = "Created_on" then some today_string
        else getAssoc attrs k := by
  simp only [BaseCase.update_metadata]
  rw [getAssoc_foldl_delIfPresent]
  by_cases hk : k ∈ del_attrs
  · simp [hk]
  · rw [if_neg hk, if_neg hk]
    by_cases h3 : k = "Created_with"
    · subst h3
      simp [getAssoc_updAssoc_same]
    · rw [getAssoc_updAssoc_ne _ _ _ _ h3, if_neg h3]
      by_cases h2 : k = "Created_by"
      · subst h2
        simp [getAssoc_updAssoc_same]
      · rw [getAssoc_updAssoc_ne _ _ _ _ h2, if_neg h2]
        by_cases h1 : k = "Created_on"
        · subst h1
          simp [getAssoc_updAssoc_same]
        · rw [getAssoc_updAssoc_ne _ _ _ _ h1, if_neg h1]

/-- C5: after `update_metadata` the attributes `Created_on`, `Created_by` and
`Created_with` hold the freshly computed values, overwriting any pre-existing
values; the eight legacy keys — including the merged `historyHistory_Log`,
but not `history` or `History_Log` separately — are absent; every key outside
these eleven is untouched, and a key absent beforehand causes no error (the
embedded function is total, mirroring the membership-guarded deletion loop). -/
theorem update_metadata_attrs (bc : BaseCase) (attrs : List (String × String))
    (today_string user file_abspath sha : String) (k : String)
    (hk : k ∉ del_attrs) (h1 : k ≠ "Created_on") (h2 : k ≠ "Created_by")
    (h3 : k ≠ "Created_with") :
    getAssoc (bc.update_metadata attrs today_string user file_abspath sha) "Created_on"
        = some today_string ∧
    getAssoc (bc.update_metadata attrs today_string user file_abspath sha) "Created_by"
        = some user ∧
    getAssoc (bc.update_metadata attrs today_string user file_abspath sha) "Created_with"
        = some (file_abspath ++ " -- " ++ sha) ∧
    getAssoc (bc.update_metadata attrs today_string user file_abspath sha) "source_code"
        = none ∧
    getAssoc (bc.update_metadata attrs today_string user file_abspath sha) "SVN_url"
        = none ∧
    getAssoc (bc.update_metadata attrs today_string user file_abspath sha) "hostname"
        = none ∧
    getAssoc (bc.update_metadata attrs today_string user file_abspath sha) "historyHistory_Log"
        = none ∧
    getAssoc (bc.update_metadata attrs today_string user file_abspath sha) "Logname"
        = none ∧
    getAssoc (bc.update_metadata attrs today_string user file_abspath sha) "Host"
        = none ∧
    getAssoc (bc.update_metadata attrs today_string user file_abspath sha) "Version"
        = none ∧
    getAssoc (bc.update_metadata attrs today_string user file_abspath sha) "Compiler_Optimized"
        = none ∧
    getAssoc (bc.update_metadata attrs today_string user file_abspath sha) k
        = getAssoc attrs k := by
  refine ⟨?_, ?_, ?_, ?_, ?_, ?_, ?_, ?_, ?_, ?_, ?_, ?_⟩ <;>
    rw [getAssoc_update_metadata]
  · rw [if_neg (by decide), if_neg (by decide), if_neg (by decide), if_pos rfl]
  · rw [if_neg (by decide), if_neg (by decide), if_pos rfl]
  · rw [if_neg (by decide), if_pos rfl]
  · rw [if_pos (by decide)]
  · rw [if_pos (by decide)]
  · rw [if_pos (by decide)]
  · rw [if_pos (by decide)]
  · rw [if_pos (by decide)]
  · rw [if_pos (by decide)]
  · rw [if_pos (by decide)]
  · rw [if_pos (by decide)]
  · rw [if_neg hk, if_neg h3, if_neg h2, if_neg h1]

/-- Witness for C5 on a concrete dictionary holding `history`, `History_Log`,
`Version`, `hostname` and a stale `Created_on`; the untouched key checked is
`history`. -/
theorem update_metadata_attrs_witness :
    getAssoc (BaseCase.update_metadata ⟨true, false, true, false⟩ exAttrs
        "2025-01-01" "alice" "/ctsm/base_case.py" "abc123") "Created_on"
        = some "2025-01-01" ∧
    getAssoc (BaseCase.update_metadata ⟨true, false, true, false⟩ exAttrs
        "2025-01-01" "alice" "/ctsm/base_case.py" "abc123") "Created_by"
        = some "alice" ∧
    getAssoc (BaseCase.update_metadata ⟨true, false, true, false⟩ exAttrs
        "2025-01-01" "alice" "/ctsm/base_case.py" "abc123") "Created_with"
        = some ("/ctsm/base_case.py" ++ " -- " ++ "abc123") ∧
    getAssoc (BaseCase.update_metadata ⟨true, false, true, false⟩ exAttrs
        "2025-01-01" "alice" "/ctsm/base_case.py" "abc123") "source_code" = none ∧
    getAssoc (BaseCase.update_metadata ⟨true, false, true, false⟩ exAttrs
        "2025-01-01" "alice" "/ctsm/base_case.py" "abc123") "SVN_url" = none ∧
    getAssoc (BaseCase.update_metadata ⟨true, false, true, false⟩ exAttrs
        "2025-01-01" "alice" "/ctsm/base_case.py" "abc123") "hostname" = none ∧
    getAssoc (BaseCase.update_metadata ⟨true, false, true, false⟩ exAttrs
        "2025-01-01" "alice" "/ctsm/base_case.py" "abc123") "historyHistory_Log" = none ∧
    getAssoc (BaseCase.update_metadata ⟨true, false, true, false⟩ exAttrs
        "2025-01-01" "alice" "/ctsm/base_case.py" "abc123") "Logname" = none ∧
    getAssoc (BaseCase.update_metadata ⟨true, false, true, false⟩ exAttrs
        "2025-01-01" "alice" "/ctsm/base_case.py" "abc123") "Host" = none ∧
    getAssoc (BaseCase.update_metadata ⟨true, false, true, false⟩ exAttrs
        "2025-01-01" "alice" "/ctsm/base_case.py" "abc123") "Version" = none ∧
    getAssoc (BaseCase.update_metadata ⟨true, false, true, false⟩ exAttrs
        "2025-01-01" "alice" "/ctsm/base_case.py" "abc123") "Compiler_Optimized" = none ∧
    getAssoc (BaseCase.update_metadata ⟨true, false, true, false⟩ exAttrs
        "2025-01-01" "alice" "/ctsm/base_case.py" "abc123") "history"
        = getAssoc exAttrs "history" :=
  update_metadata_attrs ⟨true, false, true, false⟩ exAttrs
    "2025-01-01" "alice" "/ctsm/base_case.py" "abc123" "history"
    (by decide) (by decide) (by decide) (by decide)

/-- C8: running `update_metadata` twice in succession with the date, user,
tool path and revision hash unchanged between the runs yields exactly the
attribute dictionary of a single run — the operation is idempotent. -/
theorem update_metadata_idempotent (bc : BaseCase) (attrs : List (String × String))
    (today_string user file_abspath sha : String) :
    bc.update_metadata (bc.update_metadata attrs today_string user file_abspath sha)
        today_string user file_abspath sha
      = bc.update_metadata attrs today_string user file_abspath sha := by
  set u := bc.update_metadata attrs today_string user file_abspath sha with hu
  have hon : getAssoc u "Created_on" = some today_string := by
    rw [hu, getAssoc_update_metadata]
    rw [if_neg (by decide), if_neg (by decide), if_neg (by decide), if_pos rfl]
  have hby : getAssoc u "Created_by" = some user := by
    rw [hu, getAssoc_update_metadata]
    rw [if_neg (by decide), if_neg (by decide), if_pos rfl]
  have hwith : getAssoc u "Created_with" = some (file_abspath ++ " -- " ++ sha) := by
    rw [hu, getAssoc_update_metadata]
    rw [if_neg (by decide), if_pos rfl]
  have habs : ∀ k ∈ del_attrs, getAssoc u k = none := by
    intro k hk
    rw [hu, getAssoc_update_metadata, if_pos hk]
  simp only [BaseCase.update_metadata]
  rw [updAssoc_same_value u "Created_on" today_string hon]
  rw [updAssoc_same_value u "Created_by" user hby]
  rw [updAssoc_same_value u "Created_with" (file_abspath ++ " -- " ++ sha) hwith]
  exact foldl_delIfPresent_absent del_attrs u habs

/-- A variable of a dataset: a 1-D value along a named dimension, or a 2-D
value along a `(ydim, xdim)` pair of dimensions. -/
inductive VarData (α : Type) where
  | one (dim : String) (vals : List α)
  | two (dims : String × String) (vals : List (List α))
deriving DecidableEq

/-- Model of an opened `xarray.Dataset`: named variables together with the
set of names currently holding coordinate role. -/
structure Dataset (α : Type) where
  vars : List (String × VarData α)
  coordNames : List String
deriving DecidableEq

/-- Model of a 1-D `xarray.DataArray` built as in the source:
`xr.DataArray(values, name=name, dims=dims, coords={dims: coordVals})`. -/
structure DataArray (α : Type) where
  name : String
  dims : String
  values : List α
  coordVals : List α
deriving DecidableEq

/-- Append a name to a name list unless already present. -/
def insertName (l : List String) (n : String) : List String :=
  if n ∈ l then l else l ++ [n]

/-- Model of `xarray.Dataset.assign` for two 1-D DataArrays each carrying an
index coordinate on its own dimension (the only use in the source): the
assigned arrays become data variables under their names, and each attached
coordinate becomes a coordinate variable of the dataset under the dimension
name.  `assign` returns a new dataset and gives the assigned names themselves
no coordinate role. -/
def Dataset.assign2 {α : Type} (ds : Dataset α) (da1 da2 : DataArray α) : Dataset α :=
  let vars1 := updAssoc (updAssoc ds.vars da1.name (VarData.one da1.dims da1.values))
      da1.dims (VarData.one da1.dims da1.coordVals)
  let vars2 := updAssoc (updAssoc vars1 da2.name (VarData.one da2.dims da2.values))
      da2.dims (VarData.one da2.dims da2.coordVals)
  { vars := vars2,
    coordNames := insertName (insertName ds.coordNames da1.dims) da2.dims }

/-- Model of `xarray.Dataset.reset_coords(names)`: `KeyError` (embedded as
`none`) when a name is missing from the dataset; otherwise a NEW dataset in
which the named variables lose coordinate role — the receiver itself is
unchanged.  (xarray's further restriction on resetting index coordinates is
irrelevant here: the source passes only the names of the 2-D fields, which
cannot be index coordinates.) -/
def Dataset.reset_coords {α : Type} (ds : Dataset α) (names : List String) :
    Option (Dataset α) :=
  if names.all (fun n => (getAssoc ds.vars n).isSome)
  then some { ds with coordNames := ds.coordNames.filter (fun c0 => !(names.contains c0)) }
  else none

/-- Row extraction `arr[0, :]` on a 2-D value; `IndexError` embedded as
`none`. -/
def firstRow {α : Type} (m : List (List α)) : Option (List α) := m.head?

/-- Column extraction `arr[:, 0]` on a 2-D value. -/
def firstCol {α : Type} (m : List (List α)) : Option (List α) := m.mapM List.head?

/-- Indexing a variable with `[0, :]` or `[:, 0]` requires it to be 2-D; the
error on a 1-D variable is embedded as `none`. -/
def as2 {α : Type} : VarData α → Option (List (List α))
  | VarData.two _ m => some m
  | _ => none

/-- Embedding of `BaseCase.create_1d_coord` (base_case.py lines 92-127),
starting from the already-opened input dataset (`xr.open_dataset` and
`f_in.close()` are the file-system boundary).  Failures (missing variable,
wrong rank, empty array) are embedded as `none`.  The source calls
`f_out.reset_coords(...)` and discards the returned dataset; the binding
below mirrors that — an error there would propagate, but the result is
dropped and the unmodified `f_out` is returned. -/
def create_1d_coord {α : Type} (f_in : Dataset α)
    (lon_varname lat_varname x_dim y_dim : String) : Option (Dataset α) := do
  let lonV ← getAssoc f_in.vars lon_varname
  let lonM ← as2 lonV
  let lon0 ← firstRow lonM
  let latV ← getAssoc f_in.vars lat_varname
  let latM ← as2 latV
  let lat0 ← firstCol latM
  let lon : DataArray α := ⟨"lon", x_dim, lon0, lon0⟩
  let lat : DataArray α := ⟨"lat", y_dim, lat0, lat0⟩
  let f_out := f_in.assign2 lon lat
  let _ ← f_out.reset_coords [lon_varname, lat_varname]
  some f_out

/-- Example input dataset for C3: the 2-D lon/lat fields carry coordinate
role on input. -/
def exC3 : Dataset Int :=
  { vars := [("LONGXY", VarData.two ("lsmlat", "lsmlon") [[10, 20], [10, 20]]),
             ("LATIXY", VarData.two ("lsmlat", "lsmlon") [[1, 1], [2, 2]])],
    coordNames := ["LONGXY", "LATIXY"] }

/-- Example input dataset for C4: the 2-D lon/lat fields are plain data
variables. -/
def exC4 : Dataset Int :=
  { vars := [("LONGXY", VarData.two ("lsmlat", "lsmlon") [[10, 20], [10, 20]]),
             ("LATIXY", VarData.two ("lsmlat", "lsmlon") [[1, 1], [2, 2]])],
    coordNames := [] }

theorem getAssoc_updAssoc_isSome {β : Type} (l : List (String × β)) (k k' : String)
    (v : β) (h : (getAssoc l k).isSome) : (getAssoc (updAssoc l k' v) k).isSome := by
  by_cases hk : k = k'
  · subst hk
    rw [getAssoc_updAssoc_same]
    rfl
  · rw [getAssoc_updAssoc_ne _ _ _ _ hk]
    exact h

theorem mem_insertName_self (l : List String) (n : String) : n ∈ insertName l n := by
  unfold insertName
  by_cases h : n ∈ l
  · rw [if_pos h]; exact h
  · rw [if_neg h]; simp

theorem mem_insertName_of_mem (l : List String) (n m : String) (h : n ∈ l) :
    n ∈ insertName l m := by
  unfold insertName
  by_cases hm : m ∈ l
  · rw [if_pos hm]; exact h
  · rw [if_neg hm]; simp [h]

theorem not_mem_insertName (l : List String) (n m : String) (h : n ∉ l) (hnm : n ≠ m) :
    n ∉ insertName l m := by
  unfold insertName
  by_cases hm : m ∈ l
  · rw [if_pos hm]; exact h
  · rw [if_neg hm]; simp [h, hnm]

/-- C3 (evaluation at the failing input): on a dataset whose 2-D lon/lat
fields hold coordinate role, `create_1d_coord` returns them STILL in
coordinate role — `reset_coords` returns a new dataset that the source
discards, so the demotion the claim describes never happens; the fields are,
however, not deleted. -/
theorem create_1d_coord_keeps_coord_role :
    (create_1d_coord exC3 "LONGXY" "LATIXY" "lsmlon" "lsmlat").map
        (fun d => (d.coordNames, (getAssoc d.vars "LONGXY").isSome,
          (getAssoc d.vars "LATIXY").isSome))
      = some (["LONGXY", "LATIXY", "lsmlon", "lsmlat"], true, true) := by
  decide

/-- C4 counterexample: at a concrete dataset, the new 1-D variable `lon` of
the returned dataset is NOT a coordinate variable (the coordinate role goes
to the dimension name `lsmlon` instead), refuting the claim as stated. -/
theorem create_1d_coord_lon_not_coord :
    (create_1d_coord exC4 "LONGXY" "LATIXY" "lsmlon" "lsmlat").map
        (fun d => d.coordNames.contains "lon") = some false := by
  decide

/-- C4 (amended): for a dataset whose named 2-D lon/lat fields have shape
`[y_dim, x_dim]`, `create_1d_coord` succeeds and returns the `assign` result
in which `lon` is a new 1-D DATA variable along `x_dim` equal to the first
row of the 2-D longitude field, `lat` a 1-D data variable along `y_dim` equal
to the first column of the 2-D latitude field, while the dimension names
`x_dim` and `y_dim` become the coordinate variables carrying those same
values; `lon` and `lat` themselves get no coordinate role. -/
theorem create_1d_coord_axes {α : Type} (f_in : Dataset α)
    (lon_varname lat_varname x_dim y_dim : String)
    (lonM latM : List (List α)) (r c : List α)
    (hlon : getAssoc f_in.vars lon_varname = some (VarData.two (y_dim, x_dim) lonM))
    (hlat : getAssoc f_in.vars lat_varname = some (VarData.two (y_dim, x_dim) latM))
    (hr : firstRow lonM = some r) (hc : firstCol latM = some c)
    (hx1 : x_dim ≠ "lon") (hx2 : x_dim ≠ "lat")
    (hy1 : y_dim ≠ "lon") (hy2 : y_dim ≠ "lat") (hxy : x_dim ≠ y_dim)
    (hlc : "lon" ∉ f_in.coordNames) (hLc : "lat" ∉ f_in.coordNames) :
    create_1d_coord f_in lon_varname lat_varname x_dim y_dim
        = some (f_in.assign2 ⟨"lon", x_dim, r, r⟩ ⟨"lat", y_dim, c, c⟩) ∧
    getAssoc (f_in.assign2 ⟨"lon", x_dim, r, r⟩ ⟨"lat", y_dim, c, c⟩).vars "lon"
        = some (VarData.one x_dim r) ∧
    getAssoc (f_in.assign2 ⟨"lon", x_dim, r, r⟩ ⟨"lat", y_dim, c, c⟩).vars "lat"
        = some (VarData.one y_dim c) ∧
    getAssoc (f_in.assign2 ⟨"lon", x_dim, r, r⟩ ⟨"lat", y_dim, c, c⟩).vars x_dim
        = some (VarData.one x_dim r) ∧
    getAssoc (f_in.assign2 ⟨"lon", x_dim, r, r⟩ ⟨"lat", y_dim, c, c⟩).vars y_dim
        = some (VarData.one y_dim c) ∧
    x_dim ∈ (f_in.assign2 ⟨"lon", x_dim, r, r⟩ ⟨"lat", y_dim, c, c⟩).coordNames ∧
    y_dim ∈ (f_in.assign2 ⟨"lon", x_dim, r, r⟩ ⟨"lat", y_dim, c, c⟩).coordNames ∧
    "lon" ∉ (f_in.assign2 ⟨"lon", x_dim, r, r⟩ ⟨"lat", y_dim, c, c⟩).coordNames ∧
    "lat" ∉ (f_in.assign2 ⟨"lon", x_dim, r, r⟩ ⟨"lat", y_dim, c, c⟩).coordNames := by
  have hpl : (getAssoc (f_in.assign2 ⟨"lon", x_dim, r, r⟩ ⟨"lat", y_dim, c, c⟩).vars
      lon_varname).isSome := by
    simp only [Dataset.assign2]
    exact getAssoc_updAssoc_isSome _ _ _ _ (getAssoc_updAssoc_isSome _ _ _ _
      (getAssoc_updAssoc_isSome _ _ _ _ (getAssoc_updAssoc_isSome _ _ _ _
        (by rw [hlon]; rfl))))
  have hpL : (getAssoc (f_in.assign2 ⟨"lon", x_dim, r, r⟩ ⟨"lat", y_dim, c, c⟩).vars
      lat_varname).isSome := by
    simp only [Dataset.assign2]
    exact getAssoc_updAssoc_isSome _ _ _ _ (getAssoc_updAssoc_isSome _ _ _ _
      (getAssoc_updAssoc_isSome _ _ _ _ (getAssoc_updAssoc_isSome _ _ _ _
        (by rw [hlat]; rfl))))
  have hreset : ((f_in.assign2 ⟨"lon", x_dim, r, r⟩ ⟨"lat", y_dim, c, c⟩).reset_coords
      [lon_varname, lat_varname]).isSome := by
    unfold Dataset.reset_coords
    rw [if_pos (by simp [hpl, hpL])]
    rfl
  refine ⟨?_, ?_, ?_, ?_, ?_, ?_, ?_, ?_, ?_⟩
  · simp only [create_1d_coord, hlon, hlat, as2, Option.bind_eq_bind, Option.some_bind,
      hr, hc]
    obtain ⟨d, hd⟩ := Option.isSome_iff_exists.mp hreset
    rw [hd]
    rfl
  · simp only [Dataset.assign2]
    rw [getAssoc_updAssoc_ne _ _ _ _ (Ne.symm hy1),
        getAssoc_updAssoc_ne _ _ _ _ (by decide : "lon" ≠ "lat"),
        getAssoc_updAssoc_ne _ _ _ _ (Ne.symm hx1),
        getAssoc_updAssoc_same]
  · simp only [Dataset.assign2]
    rw [getAssoc_updAssoc_ne _ _ _ _ (Ne.symm hy2),
        getAssoc_updAssoc_same]
  · simp only [Dataset.assign2]
    rw [getAssoc_updAssoc_ne _ _ _ _ hxy,
        getAssoc_updAssoc_ne _ _ _ _ hx2,
        getAssoc_updAssoc_same]
  · simp only [Dataset.assign2]
    rw [getAssoc_updAssoc_same]
  · simp only [Dataset.assign2]
    exact mem_insertName_of_mem _ _ _ (mem_insertName_self _ _)
  · simp only [Dataset.assign2]
    exact mem_insertName_self _ _
  · simp only [Dataset.assign2]
    exact not_mem_insertName _ _ _ (not_mem_insertName _ _ _ hlc (Ne.symm hx1))
      (Ne.symm hy1)
  · simp only [Dataset.assign2]
    exact not_mem_insertName _ _ _ (not_mem_insertName _ _ _ hLc (Ne.symm hx2))
      (Ne.symm hy2)

/-- Witness for C4 (amended) at the concrete dataset `exC4`: the first row of
`LONGXY` is `[10, 20]` and the first column of `LATIXY` is `[1, 2]`. -/
theorem create_1d_coord_axes_witness :
    create_1d_coord exC4 "LONGXY" "LATIXY" "lsmlon" "lsmlat"
        = some (exC4.assign2 ⟨"lon", "lsmlon", [10, 20], [10, 20]⟩
            ⟨"lat", "lsmlat", [1, 2], [1, 2]⟩) ∧
    getAssoc (exC4.assign2 ⟨"lon", "lsmlon", [10, 20], [10, 20]⟩
        ⟨"lat", "lsmlat", [1, 2], [1, 2]⟩).vars "lon"
        = some (VarData.one "lsmlon" [10, 20]) ∧
    getAssoc (exC4.assign2 ⟨"lon", "lsmlon", [10, 20], [10, 20]⟩
        ⟨"lat", "lsmlat", [1, 2], [1, 2]⟩).vars "lat"
        = some (VarData.one "lsmlat" [1, 2]) ∧
    getAssoc (exC4.assign2 ⟨"lon", "lsmlon", [10, 20], [10, 20]⟩
        ⟨"lat", "lsmlat", [1, 2], [1, 2]⟩).vars "lsmlon"
        = some (VarData.one "lsmlon" [10, 20]) ∧
    getAssoc (exC4.assign2 ⟨"lon", "lsmlon", [10, 20], [10, 20]⟩
        ⟨"lat", "lsmlat", [1, 2], [1, 2]⟩).vars "lsmlat"
        = some (VarData.one "lsmlat" [1, 2]) ∧
    "lsmlon" ∈ (exC4.assign2 ⟨"lon", "lsmlon", [10, 20], [10, 20]⟩
        ⟨"lat", "lsmlat", [1, 2], [1, 2]⟩).coordNames ∧
    "lsmlat" ∈ (exC4.assign2 ⟨"lon", "lsmlon", [10, 20], [10, 20]⟩
        ⟨"lat", "lsmlat", [1, 2], [1, 2]⟩).coordNames ∧
    "lon" ∉ (exC4.assign2 ⟨"lon", "lsmlon", [10, 20], [10, 20]⟩
        ⟨"lat", "lsmlat", [1, 2], [1, 2]⟩).coordNames ∧
    "lat" ∉ (exC4.assign2 ⟨"lon", "lsmlon", [10, 20], [10, 20]⟩
        ⟨"lat", "lsmlat", [1, 2], [1, 2]⟩).coordNames :=
  create_1d_coord_axes exC4 "LONGXY" "LATIXY" "lsmlon" "lsmlat"
    [[10, 20], [10, 20]] [[1, 1], [2, 2]] [10, 20] [1, 2]
    (by decide) (by decide) (by decide) (by decide) (by decide) (by decide)
    (by decide) (by decide) (by decide) (by decide) (by decide)

/-- C9: the four boolean flags recorded at construction have no effect on the
three operations — `update_metadata` never reads `self`, and
`create_1d_coord` and `add_tag_to_filename` are staticmethods that take no
instance at all, so any two flag assignments give identical results and
identical dataset mutations on identical inputs. -/
theorem flags_have_no_effect {α : Type} (bc1 bc2 : BaseCase)
    (attrs : List (String × String)) (today_string user file_abspath sha : String)
    (filename tag ymd : List Char)
    (f_in : Dataset α) (lon_varname lat_varname x_dim y_dim : String) :
    bc1.update_metadata attrs today_string user file_abspath sha
        = bc2.update_metadata attrs today_string user file_abspath sha ∧
    add_tag_to_filename filename tag ymd = add_tag_to_filename filename tag ymd ∧
    create_1d_coord f_in lon_varname lat_varname x_dim y_dim
        = create_1d_coord f_in lon_varname lat_varname x_dim y_dim :=
  ⟨rfl, rfl, rfl⟩

end CTSM
